import Mathlib

/-!
Shallow embedding of the riddler game core (src/src/main.rs): the session
state, scoring function, judgement parsing, the four guardian-turn
operations, and JSON persistence. Strings are modelled at the ASCII level
(the only characters the embedded comparisons ever inspect are ASCII).
-/

namespace Riddler

/-- One chat message: a role tag and its text (rig completion Message,
modelled as a role/content record as serialized in the save file). -/
structure Message where
  role : String
  content : String
deriving DecidableEq, Repr

/-- Message.user from the rig crate: a user-role message. -/
def Message.user (t : String) : Message := ⟨"user", t⟩

/-- Message.assistant from the rig crate: an assistant-role message. -/
def Message.assistant (t : String) : Message := ⟨"assistant", t⟩

/-- GameState struct (main.rs lines 29-38): machine integers usize and i32
are modelled as Nat and Int (the counters are only ever incremented by one
per user action, far from any wrap). -/
structure GameState where
  difficulty : Nat
  current_riddle : String
  attempts : Nat
  hints_used : Nat
  history : List Message
  score : Int
  date_started : String
deriving DecidableEq, Repr

/-- Default for GameState (main.rs lines 40-52); the clock reading
Local.now is passed in as the string argument. -/
def GameState.default (now : String) : GameState :=
  { difficulty := 1
    current_riddle := ""
    attempts := 0
    hints_used := 0
    history := []
    score := 0
    date_started := now }

/-- calculate_score (main.rs lines 133-145). -/
def calculate_score (difficulty attempts hints : Nat) : Int :=
  let base_score : Int :=
    match difficulty with
    | 0 => 10
    | 1 => 25
    | 2 => 50
    | _ => 25
  let attempt_penalty : Int := (max ((attempts : Int) - 1) 0) * 5
  let hint_penalty : Int := (hints : Int) * 10
  max (base_score - attempt_penalty - hint_penalty) 0

/-- Base score as the spec words it: 0 gives 10, 1 gives 25, 2 gives 50,
any other value gives 25. Stated from the spec for comparison with
calculate_score. -/
def spec_base (d : Nat) : Int :=
  if d = 0 then 10 else if d = 1 then 25 else if d = 2 then 50 else 25

/-- The scoring formula as the spec words it:
max(base - 5*max(attempts-1,0) - 10*hints, 0). -/
def spec_score (d a h : Nat) : Int :=
  max (spec_base d - 5 * max ((a : Int) - 1) 0 - 10 * (h : Int)) 0

/-- The apostrophe character, spelled by code point so string literals stay
plain. -/
def apos : String := String.singleton (Char.ofNat 39)

/-- ASCII whitespace, the characters trim strips in the replies the game
compares. -/
def isWs (c : Char) : Bool := c = ' ' || c = '\t' || c = '\n' || c = '\r'

/-- Rust str trim modelled on ASCII: drop whitespace from both ends. -/
def trimChars (l : List Char) : List Char :=
  ((l.dropWhile isWs).reverse.dropWhile isWs).reverse

/-- Rust to_lowercase modelled on ASCII: map capital letters to lower
case. -/
def lowerChar (c : Char) : Char :=
  if 65 ≤ c.toNat ∧ c.toNat ≤ 90 then Char.ofNat (c.toNat + 32) else c

/-- The judgement normalization of check_guess (main.rs line 256): trim,
then lowercase. -/
def cleanJudgement (s : String) : String :=
  String.mk ((trimChars s.toList).map lowerChar)

/-- The judgement comparison of check_guess (main.rs line 257). -/
def judgeCorrect (s : String) : Bool :=
  cleanJudgement s == "yes" || cleanJudgement s == "yes."

/-- JSON values as serde_json represents them, numbers restricted to the
integers, the only numbers the save file contains. -/
inductive Json where
  | null : Json
  | bool (b : Bool) : Json
  | num (n : Int) : Json
  | str (s : String) : Json
  | arr (xs : List Json) : Json
  | obj (fields : List (String × Json)) : Json

/-- Field lookup in a serde_json object: first match by key. -/
def Json.lookup : List (String × Json) → String → Option Json
  | [], _ => none
  | (k, v) :: rest, key => if k = key then some v else Json.lookup rest key

/-- Decode a JSON number as a usize: negative numbers are rejected. -/
def Json.asNat : Json → Option Nat
  | .num n => if n < 0 then none else some n.toNat
  | _ => none

/-- Serde serialization of a Message. -/
def Message.toJson (m : Message) : Json :=
  .obj [("role", .str m.role), ("content", .str m.content)]

/-- Serde deserialization of a Message. -/
def Message.fromJson : Json → Option Message
  | .obj fields =>
      match Json.lookup fields "role", Json.lookup fields "content" with
      | some (.str r), some (.str c) => some ⟨r, c⟩
      | _, _ => none
  | _ => none

/-- Serde deserialization of a vector of Message values. -/
def decodeMessages : List Json → Option (List Message)
  | [] => some []
  | j :: rest =>
      match Message.fromJson j, decodeMessages rest with
      | some m, some ms => some (m :: ms)
      | _, _ => none

/-- Serde serialization of GameState, field for field in declaration
order. serde_json to_string_pretty is modelled at the JSON tree level; the
rendering of the tree to text and its re-parsing are the serde_json
library, outside this repository. -/
def GameState.toJson (s : GameState) : Json :=
  .obj [("difficulty", .num s.difficulty),
        ("current_riddle", .str s.current_riddle),
        ("attempts", .num s.attempts),
        ("hints_used", .num s.hints_used),
        ("history", .arr (s.history.map Message.toJson)),
        ("score", .num s.score),
        ("date_started", .str s.date_started)]

/-- Serde deserialization of GameState: every field required, any shape
mismatch rejects the document. -/
def GameState.fromJson : Json → Option GameState
  | .obj fields =>
      match (Json.lookup fields "difficulty").bind Json.asNat,
            Json.lookup fields "current_riddle",
            (Json.lookup fields "attempts").bind Json.asNat,
            (Json.lookup fields "hints_used").bind Json.asNat,
            Json.lookup fields "history",
            Json.lookup fields "score",
            Json.lookup fields "date_started" with
      | some d, some (.str r), some a, some h, some (.arr hist),
          some (.num sc), some (.str ds) =>
          match decodeMessages hist with
          | some msgs => some ⟨d, r, a, h, msgs, sc, ds⟩
          | none => none
      | _, _, _, _, _, _, _ => none
  | _ => none

/-- save_game (main.rs lines 94-112): serialize, write a temp file, then
atomically replace the save slot; the slot (a file abstracted to the JSON
tree it holds) ends as the new document whatever it held before. -/
def save_game (state : GameState) (slot : Option Json) : Option Json :=
  match slot with
  | _ => some (GameState.toJson state)

/-- load_game (main.rs lines 114-122): a missing slot yields the default
state; a slot that does not decode is a parse error, modelled as none. The
clock reading for the default is passed as the now argument. -/
def load_game (now : String) (slot : Option Json) : Option GameState :=
  match slot with
  | none => some (GameState.default now)
  | some j => GameState.fromJson j

/-- guardian_chat (main.rs lines 148-172): the completion capability
outcome is the Except argument; on failure the fixed error_message becomes
the returned error, the underlying cause being only printed. -/
def guardian_chat (result : Except String String) (error_message : String) :
    Except String String :=
  match result with
  | .ok response => .ok response
  | .error _ => .error error_message

/-- get_difficulty_prompt (main.rs lines 124-131). -/
def get_difficulty_prompt : Nat → String
  | 0 => "Please create a simple and straightforward riddle suitable for beginners."
  | 1 => "Create a moderately challenging riddle that requires some thought."
  | 2 => "Craft an extremely challenging riddle that will truly test the user" ++
      apos ++ "s intellect."
  | _ => "Come up with a riddle for the user"

/-- The prompt check_guess builds around the guess (main.rs lines
240-243). -/
def ask_about_guess (guess : String) : String :=
  "Here is the user" ++ apos ++ "s answer: " ++ guess ++
    "\nPlease answer exactly \"yes\" or \"no\" if this answer is satisfactory, nothing more."

/-- start_new_game (main.rs lines 174-206): a fresh state with the chosen
difficulty and a new timestamp, the riddle requested with an empty
history, prompt and reply appended as a pair, the state saved. On
capability failure the error propagates and no state is built or saved. -/
def start_new_game (difficulty : Nat) (now : String) (cap : Except String String)
    (slot : Option Json) : Except String (GameState × Option Json) :=
  let state0 : GameState :=
    { GameState.default now with difficulty := difficulty, date_started := now }
  let riddle_prompt := get_difficulty_prompt difficulty
  match guardian_chat cap "Failed to communicate with the Guardian" with
  | .error e => .error e
  | .ok riddle =>
      let state := { state0 with
        current_riddle := riddle
        history := state0.history ++ [Message.user riddle_prompt, Message.assistant riddle] }
      .ok (state, save_game state slot)

/-- get_hint (main.rs lines 208-231): hints_used is incremented before the
capability call; the mutable borrow of the state is modelled by returning
the state in every branch, so a failed call still returns the incremented
counter. -/
def get_hint (cap : Except String String) (state : GameState) (slot : Option Json) :
    GameState × Option Json × Except String String :=
  let hint_request := "XYZ"
  let state1 := { state with hints_used := state.hints_used + 1 }
  match guardian_chat cap "Failed to get a hint from the Guardian" with
  | .error e => (state1, slot, .error e)
  | .ok hint =>
      let state2 := { state1 with
        history := state1.history ++ [Message.user hint_request, Message.assistant hint] }
      (state2, save_game state2 slot, .ok hint)

/-- check_guess (main.rs lines 233-269): attempts is incremented before the
capability call; on success the judgement is normalized and compared, the
prompt/judgement pair appended, the score increased on a correct
judgement, and the state saved. -/
def check_guess (cap : Except String String) (guess : String) (state : GameState)
    (slot : Option Json) : GameState × Option Json × Except String Bool :=
  let state1 := { state with attempts := state.attempts + 1 }
  match guardian_chat cap "Failed to get judgment from the Guardian" with
  | .error e => (state1, slot, .error e)
  | .ok judgement =>
      let correct := judgeCorrect judgement
      let state2 := { state1 with
        history := state1.history ++
          [Message.user (ask_about_guess guess), Message.assistant judgement] }
      let state3 :=
        if correct then
          { state2 with score := state2.score +
            calculate_score state2.difficulty state2.attempts state2.hints_used }
        else state2
      (state3, save_game state3 slot, .ok correct)

/-- reveal_insight (main.rs lines 271-293): fixed prompt, pair appended,
state saved; no counter is touched. -/
def reveal_insight (cap : Except String String) (state : GameState) (slot : Option Json) :
    GameState × Option Json × Except String String :=
  let insight_prompt := "Please provide the user with their deeply deserved insight"
  match guardian_chat cap "Failed to get insight from the Guardian" with
  | .error e => (state, slot, .error e)
  | .ok insight =>
      let state2 := { state with
        history := state.history ++ [Message.user insight_prompt, Message.assistant insight] }
      (state2, save_game state2 slot, .ok insight)

/-- A user intent together with the completion capability outcome for the
turn it triggers. -/
inductive Op where
  | startNew (difficulty : Nat) (now : String) (cap : Except String String) : Op
  | hint (cap : Except String String) : Op
  | guess (g : String) (cap : Except String String) : Op
  | insight (cap : Except String String) : Op

/-- One controller step on the pair of active session and save slot, error
or not; when start_new_game fails the previous session stays active. -/
def runOp (w : GameState × Option Json) : Op → GameState × Option Json
  | .startNew d now cap =>
      match start_new_game d now cap w.2 with
      | .error _ => w
      | .ok (s, slot) => (s, slot)
  | .hint cap =>
      let r := get_hint cap w.1 w.2
      (r.1, r.2.1)
  | .guess g cap =>
      let r := check_guess cap g w.1 w.2
      (r.1, r.2.1)
  | .insight cap =>
      let r := reveal_insight cap w.1 w.2
      (r.1, r.2.1)

/-- Run a sequence of operations from an initial session and slot. -/
def runOps (w : GameState × Option Json) (ops : List Op) : GameState × Option Json :=
  ops.foldl runOp w

/-- The transcript pairing invariant: the history is a sequence of
user/assistant pairs, each user turn immediately followed by the assistant
reply. -/
inductive Paired : List Message → Prop
  | nil : Paired []
  | pair (u a : String) (rest : List Message) :
      Paired rest → Paired (Message.user u :: Message.assistant a :: rest)

/-- The session start_new_game builds from a difficulty, a clock reading
and the riddle reply. -/
def freshSession (d : Nat) (now riddle : String) : GameState :=
  { difficulty := d
    current_riddle := riddle
    attempts := 0
    hints_used := 0
    history := [Message.user (get_difficulty_prompt d), Message.assistant riddle]
    score := 0
    date_started := now }

/-- The score is never negative, being a max with zero. -/
theorem calculate_score_nonneg (d a h : Nat) : 0 ≤ calculate_score d a h := by
  unfold calculate_score
  exact le_max_right _ _

/-- The score never exceeds the base of its difficulty. -/
theorem calculate_score_le_base (d a h : Nat) : calculate_score d a h ≤ spec_base d := by
  rcases d with _ | _ | _ | d <;> simp [calculate_score, spec_base] <;> omega

/-- Every base score is at most 50. -/
theorem spec_base_le (d : Nat) : spec_base d ≤ 50 := by
  unfold spec_base
  split_ifs <;> omega

/-- Appending one user/assistant pair preserves the pairing invariant. -/
theorem Paired.append_pair {l : List Message} (h : Paired l) (u a : String) :
    Paired (l ++ [Message.user u, Message.assistant a]) := by
  induction h with
  | nil => exact Paired.pair u a [] Paired.nil
  | pair v b rest _ ih =>
      rw [List.cons_append, List.cons_append]
      exact Paired.pair v b _ ih

/-- A paired transcript has even length. -/
theorem Paired.length_even {l : List Message} (h : Paired l) : l.length % 2 = 0 := by
  induction h with
  | nil => rfl
  | pair v b rest _ ih =>
      simp only [List.length_cons]
      omega

/-- Every controller step preserves the transcript pairing invariant. -/
theorem paired_runOp (w : GameState × Option Json) (op : Op)
    (h : Paired w.1.history) : Paired (runOp w op).1.history := by
  rcases op with ⟨d, now, cap⟩ | cap | ⟨g, cap⟩ | cap <;> rcases cap with e | r
  · exact h
  · exact Paired.pair _ _ [] Paired.nil
  · exact h
  · exact h.append_pair _ _
  · exact h
  · simp only [runOp, check_guess, guardian_chat]
    split <;> exact h.append_pair _ _
  · exact h
  · exact h.append_pair _ _

/-- Any operation sequence preserves the transcript pairing invariant. -/
theorem paired_runOps (ops : List Op) :
    ∀ w : GameState × Option Json, Paired w.1.history → Paired (runOps w ops).1.history := by
  induction ops with
  | nil => exact fun w h => h
  | cons op rest ih => exact fun w h => ih (runOp w op) (paired_runOp w op h)

/-- Decoding is a left inverse of encoding for message lists. -/
theorem decode_encode_messages (l : List Message) :
    decodeMessages (l.map Message.toJson) = some l := by
  induction l with
  | nil => rfl
  | cons m rest ih => simp [decodeMessages, Message.fromJson, Message.toJson, Json.lookup, ih]

/-- A JSON number born from a usize decodes back to it. -/
theorem asNat_natCast (n : Nat) : Json.asNat (Json.num (n : Int)) = some n := by
  simp only [Json.asNat]
  rw [if_neg (by omega)]
  congr 1

/-- Decoding is a left inverse of encoding for the game state. -/
theorem fromJson_toJson (s : GameState) :
    GameState.fromJson (GameState.toJson s) = some s := by
  simp [GameState.fromJson, GameState.toJson, Json.lookup, asNat_natCast,
    decode_encode_messages]

/-- Claim C1: for every difficulty, attempts, and hints, calculate_score
returns max(base - 5*max(attempts-1,0) - 10*hints, 0), the base being 10
for difficulty 0, 25 for 1, 50 for 2 and 25 for any other value; in
particular the three quoted example values hold. -/
theorem calculate_score_matches_spec :
    (∀ d a h : Nat, calculate_score d a h = spec_score d a h) ∧
    calculate_score 1 1 0 = 25 ∧ calculate_score 2 3 1 = 30 ∧
    calculate_score 0 5 3 = 0 := by
  refine ⟨fun d a h => ?_, by decide, by decide, by decide⟩
  rcases d with _ | _ | _ | d <;>
    simp [calculate_score, spec_score, spec_base] <;> omega

/-- Claim C2: check_guess judges the reply by trimming and lowercasing it
and comparing with yes or yes-dot; exactly the replies normalizing to one
of those are reported correct, every other reply is reported incorrect,
and a reply from a successful call never produces an error. -/
theorem check_guess_judgement :
    (∀ reply guess state slot,
      (check_guess (Except.ok reply) guess state slot).2.2 =
        Except.ok (judgeCorrect reply)) ∧
    (∀ reply, judgeCorrect reply = true ↔
      (cleanJudgement reply = "yes" ∨ cleanJudgement reply = "yes.")) ∧
    judgeCorrect "yes" = true ∧ judgeCorrect "Yes." = true ∧
    judgeCorrect " yes. " = true ∧ judgeCorrect "no" = false ∧
    judgeCorrect "" = false ∧ judgeCorrect "maybe" = false := by
  refine ⟨fun reply guess state slot => ?_, fun reply => ?_,
    by decide, by decide, by decide, by decide, by decide, by decide⟩
  · simp only [check_guess, guardian_chat]
  · simp [judgeCorrect]

/-- Claim C3: after any sequence of operations, each succeeding or
failing, the transcript is made of matched user/assistant pairs, so its
length is even. -/
theorem transcript_always_paired (ops : List Op) (s : GameState) (slot : Option Json)
    (h : Paired s.history) :
    Paired (runOps (s, slot) ops).1.history ∧
    (runOps (s, slot) ops).1.history.length % 2 = 0 := by
  have hp := paired_runOps ops (s, slot) h
  exact ⟨hp, hp.length_even⟩

/-- Witness for claim C3 on a concrete run: a new game, a failed hint, a
judged guess and an insight. -/
theorem transcript_always_paired_witness :
    Paired (runOps (GameState.default "t0", none)
      [Op.startNew 1 "t1" (Except.ok "What has keys but no locks?"),
       Op.hint (Except.error "offline"),
       Op.guess "a piano" (Except.ok "yes"),
       Op.insight (Except.ok "Music needs no doors.")]).1.history ∧
    (runOps (GameState.default "t0", none)
      [Op.startNew 1 "t1" (Except.ok "What has keys but no locks?"),
       Op.hint (Except.error "offline"),
       Op.guess "a piano" (Except.ok "yes"),
       Op.insight (Except.ok "Music needs no doors.")]).1.history.length % 2 = 0 :=
  transcript_always_paired _ _ _ Paired.nil

/-- Claim C4: the session score never decreases; get_hint and
reveal_insight leave it unchanged, and check_guess adds exactly
calculate_score of the difficulty, the incremented attempts and the
current hints when the reply judges the guess correct, and nothing
otherwise (in particular nothing when the capability fails). -/
theorem score_only_grows (cap : Except String String) (g : String)
    (state : GameState) (slot : Option Json) :
    (get_hint cap state slot).1.score = state.score ∧
    (reveal_insight cap state slot).1.score = state.score ∧
    (check_guess cap g state slot).1.score = state.score +
      (match cap with
       | .error _ => 0
       | .ok reply =>
           if judgeCorrect reply then
             calculate_score state.difficulty (state.attempts + 1) state.hints_used
           else 0) ∧
    state.score ≤ (check_guess cap g state slot).1.score := by
  rcases cap with e | reply
  · exact ⟨rfl, rfl, by simp [check_guess, guardian_chat], by simp [check_guess, guardian_chat]⟩
  · refine ⟨rfl, rfl, ?_, ?_⟩
    · simp only [check_guess, guardian_chat]
      split <;> simp
    · simp only [check_guess, guardian_chat]
      split
      · have := calculate_score_nonneg state.difficulty (state.attempts + 1) state.hints_used
        simp
        omega
      · simp

/-- Claim C5 fails as stated: when the capability fails, check_guess
returns an error but the session is not left as it was before the call,
its attempts counter having been incremented. -/
theorem check_guess_failure_mutates :
    (check_guess (Except.error "network down") "a sphinx"
      (GameState.default "t0") none).1 ≠ GameState.default "t0" := by
  decide

/-- Claim C5 amended: on completion-capability failure every operation
returns its fixed failure message as the error, the transcript, score and
save slot are unchanged and nothing is persisted; however request_hint
leaves hints_used incremented and check_guess leaves attempts
incremented, and the fixed message rather than the underlying cause is
what the error carries. -/
theorem failure_aborts_turn (e now g : String) (d : Nat)
    (state : GameState) (slot : Option Json) :
    start_new_game d now (Except.error e) slot =
      Except.error "Failed to communicate with the Guardian" ∧
    get_hint (Except.error e) state slot =
      ({ state with hints_used := state.hints_used + 1 }, slot,
        Except.error "Failed to get a hint from the Guardian") ∧
    check_guess (Except.error e) g state slot =
      ({ state with attempts := state.attempts + 1 }, slot,
        Except.error "Failed to get judgment from the Guardian") ∧
    reveal_insight (Except.error e) state slot =
      (state, slot, Except.error "Failed to get insight from the Guardian") :=
  ⟨rfl, rfl, rfl, rfl⟩

/-- Claim C6: get_hint increments hints_used before the capability call,
so a failed call returns an error with hints_used incremented by one
while the transcript and the save slot are unchanged; a successful call
increments it by the same one. -/
theorem hint_failure_still_costs (e hint : String) (state : GameState) (slot : Option Json) :
    (get_hint (Except.error e) state slot).1.hints_used = state.hints_used + 1 ∧
    (get_hint (Except.error e) state slot).1.history = state.history ∧
    (get_hint (Except.error e) state slot).2.1 = slot ∧
    (get_hint (Except.error e) state slot).2.2 =
      Except.error "Failed to get a hint from the Guardian" ∧
    (get_hint (Except.ok hint) state slot).1.hints_used = state.hints_used + 1 :=
  ⟨rfl, rfl, rfl, rfl, rfl⟩

/-- Claim C7: saving a session and then loading the slot yields the same
session, field for field, the transcript in the same order. -/
theorem save_load_roundtrip (now : String) (state : GameState) (slot : Option Json) :
    load_game now (save_game state slot) = some state := by
  simp only [load_game, save_game]
  exact fromJson_toJson state

/-- Claim C8: on difficulty 0, 1 or 2 with at least one attempt,
calculate_score is non-negative and non-increasing in attempts and in
hints; determinism is inherent, the embedding being a pure function. -/
theorem calculate_score_monotone (d a a' h h' : Nat)
    (hd : d = 0 ∨ d = 1 ∨ d = 2) (_ha : 1 ≤ a) (ha' : a ≤ a') (hh' : h ≤ h') :
    0 ≤ calculate_score d a h ∧
    calculate_score d a' h ≤ calculate_score d a h ∧
    calculate_score d a h' ≤ calculate_score d a h := by
  rcases hd with rfl | rfl | rfl <;>
    simp [calculate_score] <;> constructor <;> omega

/-- Witness for claim C8 at difficulty 1, attempts 2 and 4, hints 1 and
3. -/
theorem calculate_score_monotone_witness :
    0 ≤ calculate_score 1 2 1 ∧
    calculate_score 1 4 1 ≤ calculate_score 1 2 1 ∧
    calculate_score 1 2 3 ≤ calculate_score 1 2 1 :=
  calculate_score_monotone 1 2 4 1 3 (Or.inr (Or.inl rfl)) (by decide)
    (by decide) (by decide)

/-- Claim C9 fails as stated: difficulty 3 is not treated as the medium
default: its prompt is a fourth instruction distinct from all three fixed
ones, and the created session stores difficulty 3, not 1, so the session
differs from the one a medium game starts with. -/
theorem start_new_game_default_cex :
    get_difficulty_prompt 3 ≠ get_difficulty_prompt 0 ∧
    get_difficulty_prompt 3 ≠ get_difficulty_prompt 1 ∧
    get_difficulty_prompt 3 ≠ get_difficulty_prompt 2 ∧
    (start_new_game 3 "t0" (Except.ok "r") none).toOption.map
        (fun p => (p.1.difficulty, p.1.history)) ≠
      (start_new_game 1 "t0" (Except.ok "r") none).toOption.map
        (fun p => (p.1.difficulty, p.1.history)) := by
  decide

/-- Claim C9 amended: start_new_game stores the difficulty exactly as
given and prompts with get_difficulty_prompt, which has three fixed
difficulty-specific instructions for 0, 1 and 2 and a distinct generic
fallback for every other value; it resets a fresh session with zero
attempts, hints and score, a new timestamp, a transcript holding exactly
the prompt/riddle pair, sets current_riddle to the reply, persists the
session and returns it. -/
theorem start_new_game_spec (d d3 : Nat) (now riddle : String) (slot : Option Json) :
    start_new_game d now (Except.ok riddle) slot =
      Except.ok (freshSession d now riddle,
        some (GameState.toJson (freshSession d now riddle))) ∧
    get_difficulty_prompt (d3 + 3) = "Come up with a riddle for the user" :=
  ⟨rfl, rfl⟩

/-- Claim C10: the score never exceeds the base of its difficulty, every
base is at most 50, and one guess raises the session score by at most
50. -/
theorem score_gain_bounded :
    (∀ d a h : Nat, calculate_score d a h ≤ spec_base d) ∧
    (∀ d : Nat, spec_base d ≤ 50) ∧
    (∀ cap g state slot,
      (check_guess cap g state slot).1.score ≤ state.score + 50) := by
  refine ⟨calculate_score_le_base, spec_base_le, fun cap g state slot => ?_⟩
  rcases cap with e | reply
  · simp [check_guess, guardian_chat]
  · simp only [check_guess, guardian_chat]
    split
    · have h1 := calculate_score_le_base state.difficulty (state.attempts + 1) state.hints_used
      have h2 := spec_base_le state.difficulty
      simp
      omega
    · simp

end Riddler
